import Mathlib

/-!
Verification development for the Abyss quant-trainer frontend
(`src/quant-trainer-frontend/src/App.tsx`, `src/api.ts`).

The TypeScript orchestration module is shallowly embedded below:
* the data model (`Question`, `Filters`, `Stats`-free `AppState`) mirrors the
  interfaces in `api.ts` and the React state hooks in `App.tsx`;
* pure derived views (`filteredQuestions`, the facet-free filter predicate)
  mirror the `useMemo` body at `App.tsx:271-292`;
* the event handlers (`handleSelectQuestion`, `handleMarkSolved`,
  `handleTrainingMark`, `startTrainingSession`) become state transformers
  returning the next state together with the list of remote-service calls
  (`Event`) they issue; the outcome of the in-flight network call and the
  random index drawn by `Math.random` are passed in as parameters;
* JavaScript numerics are embedded over `Int`:
  `Math.round(d / 1000) = Int.fdiv (d + 500) 1000` and
  `Math.floor(d / 1000) = Int.fdiv d 1000` for an integer millisecond delta
  `d`; `String.prototype.toLowerCase` is modelled by mapping `Char.toLower`
  over the character sequence.
-/

namespace Abyss

/-- `Question` record from `src/api.ts`: optional fields become `Option`,
JS arrays become lists. -/
structure Question where
  id : Nat
  title : Option String := none
  url : Option String := none
  topic : Option String := none
  tags : List String := []
  difficulty : Option String := none
  companies : List String := []
  task_text : Option String := none
  task_html : Option String := none
  hint : Option String := none
  solution : Option String := none
  answer : Option String := none
  is_solved : Bool := false
  attempts : Nat := 0
  avg_time_seconds : Option Int := none
deriving DecidableEq

/-- The `Filters` interface of `App.tsx:40-47`.  The single-valued string
criteria use `""` for "inactive" exactly as the source does (JS truthiness
of the empty string). -/
structure Filters where
  difficulty : String := ""
  company : String := ""
  topics : List String := []
  tags : List String := []
  search : String := ""
  onlyUnsolved : Bool := false
deriving DecidableEq

/-- `needle` occurs at the start of `hay` (character lists). -/
def startsWithChars : List Char → List Char → Bool
  | _, [] => true
  | [], _ :: _ => false
  | c :: cs, d :: ds => c == d && startsWithChars cs ds

/-- `hay` contains `needle` as a contiguous run, the semantics of
`String.prototype.includes` on the underlying character sequences. -/
def hasSubChars : List Char → List Char → Bool
  | [], needle => needle.isEmpty
  | hay@(_ :: rest), needle => startsWithChars hay needle || hasSubChars rest needle

/-- `App.tsx:273`: `if (filters.difficulty && q.difficulty !== filters.difficulty) return false;` -/
def difficultyPass (f : Filters) (q : Question) : Bool :=
  f.difficulty == "" || q.difficulty == some f.difficulty

/-- `App.tsx:274-276`: topic must be truthy and a member of the selected set
when the topic filter is active (`!q.topic` is also true for `""`). -/
def topicsPass (f : Filters) (q : Question) : Bool :=
  f.topics.isEmpty ||
    (match q.topic with
     | none => false
     | some t => t != "" && f.topics.contains t)

/-- `App.tsx:277`: `if (filters.company && !(q.companies || []).includes(filters.company)) return false;` -/
def companyPass (f : Filters) (q : Question) : Bool :=
  f.company == "" || q.companies.contains f.company

/-- `App.tsx:278-282`: every selected tag must be present on the question. -/
def tagsPass (f : Filters) (q : Question) : Bool :=
  f.tags.isEmpty || f.tags.all (fun t => q.tags.contains t)

/-- `App.tsx:283`: `if (filters.onlyUnsolved && q.is_solved) return false;` -/
def unsolvedPass (f : Filters) (q : Question) : Bool :=
  !(f.onlyUnsolved && q.is_solved)

/-- `String.prototype.toLowerCase`, modelled character-wise. -/
def lowerChars (cs : List Char) : List Char := cs.map Char.toLower

/-- The lowercased search haystack of `App.tsx:287`:
```${q.title || ""} ${q.task_text || ""}`.toLowerCase()`` — note the single
space the template literal inserts between title and body. -/
def searchHaystack (q : Question) : List Char :=
  lowerChars (q.title.getD "" ++ " " ++ q.task_text.getD "").toList

/-- `App.tsx:285-289`: active search must occur (case-insensitively) in the
title/body haystack. -/
def searchPass (f : Filters) (q : Question) : Bool :=
  f.search == "" || hasSubChars (searchHaystack q) (lowerChars f.search.toList)

/-- The filter body of `App.tsx:272-291`; the early-`return false` chain is
the conjunction of the six dimension predicates. -/
def questionPass (f : Filters) (q : Question) : Bool :=
  difficultyPass f q && topicsPass f q && companyPass f q &&
    tagsPass f q && unsolvedPass f q && searchPass f q

/-- `filteredQuestions` (`App.tsx:271-292`): `questions.filter(...)`. -/
def filteredQuestions (questions : List Question) (f : Filters) : List Question :=
  questions.filter (questionPass f)

/-- The three view tabs (`type ViewMode`, `App.tsx:38`). -/
inductive ViewMode where
  | questions
  | stats
  | training
deriving DecidableEq

/-- A call the handlers make against the remote service client
(`updateProgress`, `fetchQuestions`, `fetchStats` of `src/api.ts`). -/
inductive Event where
  | submit (qid : Nat) (deltaSec : Int) (solved : Bool)
  | fetchCatalog
  | fetchStats
deriving DecidableEq

/-- Resolution of the `updateProgress`-then-reload block: `ok` carries the
catalog returned by the follow-up `fetchQuestions`, `err` the thrown
message. -/
inductive SubmitOutcome where
  | ok (newQuestions : List Question)
  | err (msg : String)
deriving DecidableEq

/-- Resolution of a bare `reloadQuestions()` call. -/
inductive ReloadOutcome where
  | ok (newQuestions : List Question)
  | err
deriving DecidableEq

/-- The React state of `App.tsx` relevant to the session/filtering/training
state machine (`App.tsx:122-148`).  Timestamps are epoch milliseconds. -/
structure AppState where
  questions : List Question := []
  view : ViewMode := ViewMode.questions
  selectedQuestion : Option Question := none
  startTime : Option Int := none
  showHint : Bool := false
  showSolution : Bool := false
  showAnswer : Bool := false
  infoMessage : Option String := none
  trainingQuestion : Option Question := none
  trainingModeRunning : Bool := false
  trainingStartTime : Option Int := none
  trainingElapsedSec : Int := 0
  trainingShowHint : Bool := false
  trainingShowSolution : Bool := false
  trainingShowAnswer : Bool := false
  trainingInfoMessage : Option String := none
deriving DecidableEq

/-- `App.tsx:208-213`: re-point the open detail question at its refreshed
copy (matched by id) when one exists in the new catalog. -/
def refreshSelected (newQs : List Question) (st : AppState) : AppState :=
  match st.selectedQuestion with
  | some sq =>
    match newQs.find? (fun x : Question => x.id == sq.id) with
    | some updated => { st with selectedQuestion := some updated }
    | none => st
  | none => st

/-- `App.tsx:214-219`: same refresh for the active training question. -/
def refreshTraining (newQs : List Question) (st : AppState) : AppState :=
  match st.trainingQuestion with
  | some tq =>
    match newQs.find? (fun x : Question => x.id == tq.id) with
    | some updated => { st with trainingQuestion := some updated }
    | none => st
  | none => st

/-- `reloadQuestions` (`App.tsx:204-220`): replace the catalog wholesale,
then refresh the selected and training questions. -/
def reloadQuestionsState (newQs : List Question) (st : AppState) : AppState :=
  refreshTraining newQs (refreshSelected newQs { st with questions := newQs })

/-- The elapsed-seconds value submitted with an attempt
(`App.tsx:421-423` and `App.tsx:518-522`):
`startTime !== null ? Math.max(1, Math.round((now - startTime) / 1000)) : 60`.
`Math.round` of an integer millisecond delta divided by 1000 is
`Int.fdiv (delta + 500) 1000`. -/
def computeDeltaSec (startTime : Option Int) (now : Int) : Int :=
  match startTime with
  | some t => max 1 (Int.fdiv (now - t + 500) 1000)
  | none => 60

/-- Message of `App.tsx:418`. -/
def alreadySolvedDetailMsg : String := "Задача уже отмечена как решённая."

/-- Message of `App.tsx:515`. -/
def alreadySolvedTrainingMsg : String := "Эта задача уже была решена."

/-- Messages of `App.tsx:433-437`. -/
def markSolvedSuccessMsg (solved : Bool) (deltaSec : Int) : String :=
  if solved then
    "Отлично! Задача отмечена как решённая (время ~" ++ toString deltaSec ++ " сек)."
  else
    "Попытка сохранена (время ~" ++ toString deltaSec ++ " сек)."

/-- Message of `App.tsx:440` and `App.tsx:533`. -/
def progressErrorMsg (msg : String) : String :=
  "Ошибка при сохранении прогресса: " ++ msg

/-- Message of `App.tsx:543`. -/
def allSolvedMsg : String := "Все задачи решены. Хорошая работа!"

/-- `handleSelectQuestion` (`App.tsx:401-413`): re-clicking the already-open
question only restarts the attempt clock; a different question replaces the
selection, restarts the clock, hides the three reveal blocks and clears the
message. -/
def handleSelectQuestion (q : Question) (now : Int) (st : AppState) : AppState :=
  match st.selectedQuestion with
  | some sq =>
    if sq.id == q.id then { st with startTime := some now }
    else
      { st with
          selectedQuestion := some q, startTime := some now,
          showHint := false, showSolution := false, showAnswer := false,
          infoMessage := none }
  | none =>
      { st with
          selectedQuestion := some q, startTime := some now,
          showHint := false, showSolution := false, showAnswer := false,
          infoMessage := none }

/-- `handleMarkSolved` (`App.tsx:415-442`).  `now` is `Date.now()` at entry,
`now2` the second `Date.now()` that restarts the attempt clock on success,
`outcome` resolves the `updateProgress`/reload block.  Returns the next
state and the remote calls issued. -/
def handleMarkSolved (solved : Bool) (now now2 : Int)
    (outcome : SubmitOutcome) (st : AppState) : AppState × List Event :=
  match st.selectedQuestion with
  | none => (st, [])
  | some q =>
    if solved && q.is_solved then
      ({ st with infoMessage := some alreadySolvedDetailMsg }, [])
    else
      let deltaSec := computeDeltaSec st.startTime now
      match outcome with
      | SubmitOutcome.ok newQs =>
        let st1 := reloadQuestionsState newQs st
        ({ st1 with
            infoMessage := some (markSolvedSuccessMsg solved deltaSec),
            startTime := some now2 },
         [Event.submit q.id deltaSec solved, Event.fetchCatalog, Event.fetchStats])
      | SubmitOutcome.err msg =>
        ({ st with infoMessage := some (progressErrorMsg msg) },
         [Event.submit q.id deltaSec solved])

/-- The candidate pool of `pickRandomTrainingQuestion` (`App.tsx:448-449`):
`const pool = unsolved.length ? unsolved : questions`. -/
def trainingPool (questions : List Question) : List Question :=
  let unsolved := questions.filter (fun q => !q.is_solved)
  if unsolved.isEmpty then questions else unsolved

/-- `pickRandomTrainingQuestion` (`App.tsx:446-453`); `idx` stands for
`Math.floor(Math.random() * pool.length)`, which always lies in
`[0, pool.length)`. -/
def pickRandomTrainingQuestion (questions : List Question) (idx : Nat) :
    Option Question :=
  if questions.isEmpty then none
  else
    let pool := trainingPool questions
    if pool.isEmpty then none
    else pool[idx]?

/-- The tail of `startTrainingSession` (`App.tsx:468-483`), applied to the
pick's result. -/
def startTrainingApply (now : Int) (pick : Option Question) (st : AppState)
    (evs : List Event) : AppState × List Event :=
  match pick with
  | none =>
    ({ st with
        trainingModeRunning := false, trainingQuestion := none,
        trainingInfoMessage := some "Нет задач для тренировки." }, evs)
  | some q =>
    ({ st with
        trainingQuestion := some q, trainingModeRunning := true,
        trainingStartTime := some now, trainingElapsedSec := 0,
        trainingShowHint := false, trainingShowSolution := false,
        trainingShowAnswer := false }, evs)

/-- `startTrainingSession` (`App.tsx:455-483`): switch to the training view,
reload the catalog first if it is empty, then pick and start.  The pick
reads this render's `questions` closure, which a reload inside the same
invocation does not update (React state closure semantics), so it always
draws from the entry catalog. -/
def startTrainingSession (now : Int) (reload : ReloadOutcome) (pickIdx : Nat)
    (st : AppState) : AppState × List Event :=
  let st0 := { st with view := ViewMode.training, trainingInfoMessage := none }
  if st0.questions.isEmpty then
    match reload with
    | ReloadOutcome.err =>
      ({ st0 with trainingInfoMessage := some "Не удалось загрузить задачи." },
       [Event.fetchCatalog])
    | ReloadOutcome.ok newQs =>
      startTrainingApply now (pickRandomTrainingQuestion st0.questions pickIdx)
        (reloadQuestionsState newQs st0) [Event.fetchCatalog]
  else
    startTrainingApply now (pickRandomTrainingQuestion st0.questions pickIdx)
      st0 []

/-- `stopTrainingSession` (`App.tsx:485-494`). -/
def stopTrainingSession (st : AppState) : AppState :=
  { st with
      trainingModeRunning := false, trainingQuestion := none,
      trainingStartTime := none, trainingElapsedSec := 0,
      trainingShowHint := false, trainingShowSolution := false,
      trainingShowAnswer := false, trainingInfoMessage := none }

/-- One tick of the training timer (`App.tsx:500-504`):
`Math.max(0, Math.floor((Date.now() - trainingStartTime) / 1000))`. -/
def trainingElapsedTick (now startedAt : Int) : Int :=
  max 0 (Int.fdiv (now - startedAt) 1000)

/-- `handleTrainingMark` (`App.tsx:512-554`).  `now` is `Date.now()` at
entry, `now2` the second `Date.now()` used as the next question's start
time, `pickIdx` the random draw for the advance pick.  The advance pick
reads this render's `questions` closure, which the reload inside the same
invocation does not update (React state closure semantics), so it draws
from the entry catalog. -/
def handleTrainingMark (solved : Bool) (now now2 : Int)
    (outcome : SubmitOutcome) (pickIdx : Nat) (st : AppState) :
    AppState × List Event :=
  match st.trainingQuestion with
  | none => (st, [])
  | some q =>
    if solved && q.is_solved then
      ({ st with trainingInfoMessage := some alreadySolvedTrainingMsg }, [])
    else
      let deltaSec := computeDeltaSec st.trainingStartTime now
      match outcome with
      | SubmitOutcome.err msg =>
        ({ st with trainingInfoMessage := some (progressErrorMsg msg) },
         [Event.submit q.id deltaSec solved])
      | SubmitOutcome.ok newQs =>
        let st1 := reloadQuestionsState newQs st
        let evs := [Event.submit q.id deltaSec solved, Event.fetchCatalog,
          Event.fetchStats]
        match pickRandomTrainingQuestion st.questions pickIdx with
        | none =>
          ({ st1 with
              trainingModeRunning := false, trainingQuestion := none,
              trainingStartTime := none, trainingElapsedSec := 0,
              trainingInfoMessage := some allSolvedMsg }, evs)
        | some next =>
          ({ st1 with
              trainingQuestion := some next,
              trainingStartTime := some now2, trainingElapsedSec := 0,
              trainingShowHint := false, trainingShowSolution := false,
              trainingShowAnswer := false, trainingInfoMessage := none }, evs)

/-- Number of `submit` calls in an event trace. -/
def countSubmits (evs : List Event) : Nat :=
  (evs.filter (fun e =>
    match e with
    | Event.submit _ _ _ => true
    | _ => false)).length

/-- Modelled from the spec sentence (§4.1 rule 6), for comparison with the
code's `searchPass`: case-insensitive substring match against the plain
concatenation of title and plain-text body, with no separator. -/
def searchMatchesSpec (q : Question) (search : String) : Bool :=
  hasSubChars (lowerChars (q.title.getD "" ++ q.task_text.getD "").toList)
    (lowerChars search.toList)

/-- One constraint has been added to the criteria `f`, yielding `g`:
a previously inactive single-valued dimension is activated, a tag is added
to the tag conjunction, or only-unsolved is switched on. -/
def addsConstraint (f g : Filters) : Prop :=
  g = { f with onlyUnsolved := true } ∨
  (∃ t, g = { f with tags := t :: f.tags }) ∨
  (f.difficulty = "" ∧ ∃ d, g = { f with difficulty := d }) ∨
  (f.company = "" ∧ ∃ c, g = { f with company := c }) ∨
  (f.topics = [] ∧ ∃ ts, g = { f with topics := ts }) ∨
  (f.search = "" ∧ ∃ s, g = { f with search := s })

/-- Sample catalog entries used by the concrete witnesses below. -/
def qEasyUnsolved : Question :=
  { id := 1, title := some "Coin flips", topic := some "probability",
    tags := ["combinatorics"], difficulty := some "easy",
    companies := ["FundX"], task_text := some "A fair coin is tossed.",
    is_solved := false, attempts := 0 }

def qHardSolved : Question :=
  { id := 2, title := some "Brownian bridge", topic := some "stochastic",
    tags := ["combinatorics", "martingale"], difficulty := some "hard",
    companies := ["FundY"], task_text := some "A martingale argument.",
    is_solved := true, attempts := 3 }

/-- A question whose title/body split the search haystack. -/
def qSplitHaystack : Question :=
  { id := 7, title := some "a", task_text := some "b" }

/-- A question with neither title nor plain-text body. -/
def qBlankQuestion : Question := { id := 8 }

theorem questionPass_iff (f : Filters) (q : Question) :
    questionPass f q = true ↔
      (difficultyPass f q = true ∧ topicsPass f q = true ∧
       companyPass f q = true ∧ tagsPass f q = true ∧
       unsolvedPass f q = true ∧ searchPass f q = true) := by
  simp [questionPass, Bool.and_eq_true, and_assoc]

theorem questionPass_monotone {f g : Filters} (h : addsConstraint f g)
    (q : Question) (hq : questionPass g q = true) : questionPass f q = true := by
  rcases h with h | ⟨t, h⟩ | ⟨hf, _, h⟩ | ⟨hf, _, h⟩ | ⟨hf, _, h⟩ | ⟨hf, _, h⟩ <;>
    subst h
  · simp_all [questionPass, difficultyPass, topicsPass, companyPass, tagsPass,
      unsolvedPass, searchPass, Bool.and_eq_true]
  · simp_all [questionPass, difficultyPass, topicsPass, companyPass, tagsPass,
      unsolvedPass, searchPass, Bool.and_eq_true, List.all_cons]
  · simp_all [questionPass, difficultyPass, topicsPass, companyPass, tagsPass,
      unsolvedPass, searchPass, Bool.and_eq_true]
  · simp_all [questionPass, difficultyPass, topicsPass, companyPass, tagsPass,
      unsolvedPass, searchPass, Bool.and_eq_true]
  · simp_all [questionPass, difficultyPass, topicsPass, companyPass, tagsPass,
      unsolvedPass, searchPass, Bool.and_eq_true]
  · simp_all [questionPass, difficultyPass, topicsPass, companyPass, tagsPass,
      unsolvedPass, searchPass, Bool.and_eq_true]

/-- C2: a question appears in the filtered result iff it is in the catalog
and independently satisfies every one of the six filter dimensions; the
filtered result is a sublist of the catalog (stable filter, no re-sort);
and adding a constraint to the criteria shrinks (never grows) the result,
which stays a sublist of the less-constrained result. -/
theorem filteredQuestions_correct (qs : List Question) (f : Filters)
    (q : Question) :
    (q ∈ filteredQuestions qs f ↔
      q ∈ qs ∧ difficultyPass f q = true ∧ topicsPass f q = true ∧
        companyPass f q = true ∧ tagsPass f q = true ∧
        unsolvedPass f q = true ∧ searchPass f q = true) ∧
    (filteredQuestions qs f).Sublist qs ∧
    (∀ g, addsConstraint f g →
      (filteredQuestions qs g).Sublist (filteredQuestions qs f) ∧
      (filteredQuestions qs g).length ≤ (filteredQuestions qs f).length) := by
  refine ⟨?_, ?_, ?_⟩
  · rw [filteredQuestions, List.mem_filter, questionPass_iff]
  · exact List.filter_sublist qs
  · intro g hg
    have hs : (filteredQuestions qs g).Sublist (filteredQuestions qs f) :=
      List.monotone_filter_right qs (fun a ha => questionPass_monotone hg a ha)
    exact ⟨hs, hs.length_le⟩

theorem filteredQuestions_correct_witness :
    (qEasyUnsolved ∈
      filteredQuestions [qEasyUnsolved, qHardSolved] { difficulty := "easy" }) ∧
    (filteredQuestions [qEasyUnsolved, qHardSolved]
        { difficulty := "easy", onlyUnsolved := true }).length ≤
      (filteredQuestions [qEasyUnsolved, qHardSolved]
        { difficulty := "easy" }).length := by
  constructor
  · exact (filteredQuestions_correct [qEasyUnsolved, qHardSolved]
      { difficulty := "easy" } qEasyUnsolved).1.mpr (by decide)
  · exact ((filteredQuestions_correct [qEasyUnsolved, qHardSolved]
      { difficulty := "easy" } qEasyUnsolved).2.2 _ (Or.inl rfl)).2

/-- C6: the tag filter is a conjunction — with tags `[A, B]` selected, a
question carrying only tag `A` fails the filter and is excluded from the
filtered result — while the topic filter is a disjunction — with topics
`[X, Y]` selected, a question whose topic is `X` passes the topic dimension
and appears in the filtered result provided the other dimensions pass. -/
theorem tag_and_topic_or_semantics (f : Filters) (qs : List Question)
    (q q' : Question) (A B X Y : String) :
    (f.tags = [A, B] → A ≠ B → q.tags = [A] →
      questionPass f q = false ∧ q ∉ filteredQuestions qs f) ∧
    (f.topics = [X, Y] → q'.topic = some X → X ≠ "" →
      topicsPass f q' = true ∧
      (difficultyPass f q' = true → companyPass f q' = true →
        tagsPass f q' = true → unsolvedPass f q' = true →
        searchPass f q' = true → q' ∈ qs → q' ∈ filteredQuestions qs f)) := by
  constructor
  · intro htags hne hq
    have htp : tagsPass f q = false := by
      simp [tagsPass, htags, hq, Ne.symm hne]
    have hpass : questionPass f q = false := by
      simp [questionPass, htp]
    refine ⟨hpass, ?_⟩
    simp [filteredQuestions, List.mem_filter, hpass]
  · intro htop hq hne
    have htp : topicsPass f q' = true := by
      simp [topicsPass, htop, hq, hne]
    refine ⟨htp, ?_⟩
    intro hd hc hg hu hs hmem
    rw [filteredQuestions, List.mem_filter]
    exact ⟨hmem, (questionPass_iff f q').mpr ⟨hd, htp, hc, hg, hu, hs⟩⟩

theorem tag_and_topic_or_semantics_witness :
    (questionPass { tags := ["combinatorics", "martingale"] } qEasyUnsolved
        = false ∧
      qEasyUnsolved ∉ filteredQuestions [qEasyUnsolved, qHardSolved]
        { tags := ["combinatorics", "martingale"] }) ∧
    (topicsPass { topics := ["probability", "stochastic"] } qEasyUnsolved
        = true) := by
  constructor
  · exact (tag_and_topic_or_semantics
      { tags := ["combinatorics", "martingale"] }
      [qEasyUnsolved, qHardSolved] qEasyUnsolved qEasyUnsolved
      "combinatorics" "martingale" "" "").1 rfl (by decide) rfl
  · exact ((tag_and_topic_or_semantics
      { topics := ["probability", "stochastic"] } [] qEasyUnsolved qEasyUnsolved
      "" "" "probability" "stochastic").2 rfl rfl (by decide)).1

/-- `hasSubChars` against the single-space haystack accepts exactly the
empty needle and the single-space needle. -/
theorem hasSubChars_single_space (needle : List Char) :
    hasSubChars [' '] needle = true ↔ needle = [] ∨ needle = [' '] := by
  match needle with
  | [] => simp [hasSubChars]
  | [c] =>
    simp [hasSubChars, startsWithChars]
    exact eq_comm
  | c :: d :: rest =>
    simp [hasSubChars, startsWithChars]

/-- A non-empty string lowercases to a non-empty character list. -/
theorem lowerChars_ne_nil {s : String} (h : s ≠ "") :
    lowerChars s.toList ≠ [] := by
  intro hn
  apply h
  apply String.ext
  have hl : s.toList = [] := by
    cases hc : s.toList with
    | nil => rfl
    | cons c cs => rw [hc] at hn; simp [lowerChars] at hn
  simpa using hl

/-- C7 counterexample: the code searches the title and body joined by a
single space, not their plain concatenation.  The needle `"ab"` occurs in
the concatenation of title `"a"` and body `"b"` (so the claim says it
matches) yet the code rejects it; and a question with neither title nor
body does match the non-empty search `" "`. -/
theorem searchPass_ne_spec_concat :
    (searchMatchesSpec qSplitHaystack "ab" = true ∧
      searchPass { search := "ab" } qSplitHaystack = false) ∧
    (qBlankQuestion.title = none ∧ qBlankQuestion.task_text = none ∧
      searchPass { search := " " } qBlankQuestion = true) := by
  decide

/-- C7 (amended): a non-empty search matches by case-insensitive substring
search over the title and plain-text body joined by a single space; a
question with neither present matches a non-empty search exactly when the
lowercased search text is that single space. -/
theorem searchPass_amended (f : Filters) (q : Question) (h : f.search ≠ "") :
    (searchPass f q = true ↔
      hasSubChars
        (lowerChars (q.title.getD "" ++ " " ++ q.task_text.getD "").toList)
        (lowerChars f.search.toList) = true) ∧
    (q.title.getD "" = "" → q.task_text.getD "" = "" →
      (searchPass f q = true ↔ lowerChars f.search.toList = [' '])) := by
  have hne : (f.search == "") = false := by
    simp [h]
  constructor
  · simp [searchPass, searchHaystack, hne]
  · intro ht hb
    have hhay : searchHaystack q = [' '] := by
      simp [searchHaystack, ht, hb]
      decide
    rw [searchPass, hne, hhay]
    simp only [Bool.false_or]
    rw [hasSubChars_single_space]
    have := lowerChars_ne_nil h
    constructor
    · intro hc
      rcases hc with hc | hc
      · exact absurd hc this
      · exact hc
    · intro hc; exact Or.inr hc

theorem searchPass_amended_witness :
    searchPass { search := "Q" } qBlankQuestion = true ↔
      lowerChars ("Q").toList = [' '] := by
  exact (searchPass_amended { search := "Q" } qBlankQuestion (by decide)).2
    rfl rfl

/-- Modelled from the spec sentence (§4.2 Timer), for comparison with the
code's `trainingElapsedTick`: elapsed seconds = `floor((now - startedAt) /
1000)`, with no clamp. -/
def elapsedFloorSpec (now startedAt : Int) : Int :=
  Int.fdiv (now - startedAt) 1000

/-- C9 counterexample: when `now` precedes `startedAt` the code clamps the
counter at 0 (`Math.max(0, ...)` in `App.tsx:502`) while the claimed
formula is negative. -/
theorem trainingElapsedTick_ne_floor :
    trainingElapsedTick 0 2000 ≠ elapsedFloorSpec 0 2000 := by decide

/-- C9 (amended): the displayed counter is the claimed floor clamped below
at 0 — it is never negative, equals `floor((now - startedAt) / 1000)`
whenever `now` is at or after `startedAt`, and is 0 whenever `now`
precedes `startedAt`. -/
theorem trainingElapsedTick_amended (now startedAt : Int) :
    0 ≤ trainingElapsedTick now startedAt ∧
    (startedAt ≤ now →
      trainingElapsedTick now startedAt = elapsedFloorSpec now startedAt) ∧
    (now < startedAt → trainingElapsedTick now startedAt = 0) := by
  refine ⟨le_max_left 0 _, ?_, ?_⟩
  · intro h
    unfold trainingElapsedTick elapsedFloorSpec
    exact max_eq_right (Int.fdiv_nonneg (by omega) (by norm_num))
  · intro h
    unfold trainingElapsedTick
    have hneg : Int.fdiv (now - startedAt) 1000 < 0 :=
      Int.fdiv_neg' (by omega) (by norm_num)
    exact max_eq_left (le_of_lt hneg)

theorem trainingElapsedTick_amended_witness :
    trainingElapsedTick 5000 2000 = elapsedFloorSpec 5000 2000 ∧
    trainingElapsedTick 0 2000 = 0 :=
  ⟨(trainingElapsedTick_amended 5000 2000).2.1 (by norm_num),
   (trainingElapsedTick_amended 0 2000).2.2 (by norm_num)⟩

/-- C4: the selection policy returns nothing on an empty catalog; the pool
is the unsolved subset when that is non-empty and the full catalog
otherwise; on a non-empty catalog the pool is non-empty and every in-range
random index yields some pool member; and a singleton pool is selected
deterministically. -/
theorem pickRandomTrainingQuestion_spec (qs : List Question) (idx : Nat) :
    (qs = [] → pickRandomTrainingQuestion qs idx = none) ∧
    (qs.filter (fun x => !x.is_solved) ≠ [] →
      trainingPool qs = qs.filter (fun x => !x.is_solved)) ∧
    (qs.filter (fun x => !x.is_solved) = [] → trainingPool qs = qs) ∧
    (qs ≠ [] → trainingPool qs ≠ [] ∧
      (idx < (trainingPool qs).length →
        ∃ q, pickRandomTrainingQuestion qs idx = some q ∧
          q ∈ trainingPool qs)) ∧
    (∀ q0, trainingPool qs = [q0] → idx < 1 →
      pickRandomTrainingQuestion qs idx = some q0) := by
  refine ⟨?_, ?_, ?_, ?_, ?_⟩
  · intro h; subst h; rfl
  · intro h
    unfold trainingPool
    simp [h]
  · intro h
    unfold trainingPool
    simp [h]
  · intro hqs
    have hpool : trainingPool qs ≠ [] := by
      unfold trainingPool
      by_cases h : qs.filter (fun x => !x.is_solved) = [] <;> simp [h, hqs]
    refine ⟨hpool, ?_⟩
    intro hidx
    refine ⟨(trainingPool qs).get ⟨idx, hidx⟩, ?_, List.get_mem _ _ hidx⟩
    unfold pickRandomTrainingQuestion
    simp [hqs, hpool, List.getElem?_eq_getElem hidx]
  · intro q0 hpool hidx
    have hqs : qs ≠ [] := by
      intro h
      subst h
      simp [trainingPool] at hpool
    interval_cases idx
    unfold pickRandomTrainingQuestion
    simp [hqs, hpool]

theorem pickRandomTrainingQuestion_spec_witness :
    pickRandomTrainingQuestion [qHardSolved] 0 = some qHardSolved :=
  (pickRandomTrainingQuestion_spec [qHardSolved] 0).2.2.2.2 qHardSolved
    (by decide) (by decide)

/-- A sample running session for the concrete witnesses. -/
def sampleState : AppState :=
  { questions := [qEasyUnsolved, qHardSolved],
    selectedQuestion := some qHardSolved,
    startTime := some 1000,
    trainingQuestion := some qHardSolved,
    trainingModeRunning := true,
    trainingStartTime := some 2000 }

theorem computeDeltaSec_ge_one (t : Option Int) (now : Int) :
    1 ≤ computeDeltaSec t now := by
  cases t with
  | none => norm_num [computeDeltaSec]
  | some v => exact le_max_left 1 _

theorem refreshSelected_questions (newQs : List Question) (st : AppState) :
    (refreshSelected newQs st).questions = st.questions := by
  unfold refreshSelected
  split
  · split <;> rfl
  · rfl

theorem refreshTraining_questions (newQs : List Question) (st : AppState) :
    (refreshTraining newQs st).questions = st.questions := by
  unfold refreshTraining
  split
  · split <;> rfl
  · rfl

theorem refreshTraining_selectedQuestion (newQs : List Question)
    (st : AppState) :
    (refreshTraining newQs st).selectedQuestion = st.selectedQuestion := by
  unfold refreshTraining
  split
  · split <;> rfl
  · rfl

theorem reloadQuestionsState_questions (newQs : List Question)
    (st : AppState) :
    (reloadQuestionsState newQs st).questions = newQs := by
  unfold reloadQuestionsState
  rw [refreshTraining_questions, refreshSelected_questions]

theorem reload_selectedQuestion_found (newQs : List Question) (st : AppState)
    (q q' : Question) (hsel : st.selectedQuestion = some q)
    (hfind : newQs.find? (fun x : Question => x.id == q.id) = some q') :
    (reloadQuestionsState newQs st).selectedQuestion = some q' := by
  unfold reloadQuestionsState
  rw [refreshTraining_selectedQuestion]
  unfold refreshSelected
  simp only [hsel]
  simp [hfind]

theorem submit_mem_handleMarkSolved {solved : Bool} {now now2 : Int}
    {outcome : SubmitOutcome} {st : AppState} {qid : Nat} {d : Int}
    {sv : Bool}
    (hmem : Event.submit qid d sv ∈
      (handleMarkSolved solved now now2 outcome st).2) :
    d = computeDeltaSec st.startTime now := by
  unfold handleMarkSolved at hmem
  split at hmem
  · simp at hmem
  · split at hmem
    · simp at hmem
    · split at hmem
      · simp at hmem
        exact hmem.2.1
      · simp at hmem
        exact hmem.2.1

theorem submit_mem_handleTrainingMark {solved : Bool} {now now2 : Int}
    {outcome : SubmitOutcome} {pickIdx : Nat} {st : AppState} {qid : Nat}
    {d : Int} {sv : Bool}
    (hmem : Event.submit qid d sv ∈
      (handleTrainingMark solved now now2 outcome pickIdx st).2) :
    d = computeDeltaSec st.trainingStartTime now := by
  unfold handleTrainingMark at hmem
  split at hmem
  · simp at hmem
  · split at hmem
    · simp at hmem
    · split at hmem
      · simp at hmem
        exact hmem.2.1
      · dsimp only at hmem
        split at hmem
        · simp at hmem
          exact hmem.2.1
        · simp at hmem
          exact hmem.2.1

/-- C3: every elapsed-seconds value a handler passes to the progress
submission is at least 1, and when no start timestamp is recorded it is
exactly 60. -/
theorem submitted_elapsed_ge_one (solved : Bool) (now now2 : Int)
    (outcome : SubmitOutcome) (pickIdx : Nat) (st : AppState)
    (qid : Nat) (d : Int) (sv : Bool) :
    (Event.submit qid d sv ∈
        (handleMarkSolved solved now now2 outcome st).2 →
      1 ≤ d ∧ (st.startTime = none → d = 60)) ∧
    (Event.submit qid d sv ∈
        (handleTrainingMark solved now now2 outcome pickIdx st).2 →
      1 ≤ d ∧ (st.trainingStartTime = none → d = 60)) := by
  constructor
  · intro hmem
    have hd := submit_mem_handleMarkSolved hmem
    subst hd
    exact ⟨computeDeltaSec_ge_one _ _, fun hn => by rw [hn]; rfl⟩
  · intro hmem
    have hd := submit_mem_handleTrainingMark hmem
    subst hd
    exact ⟨computeDeltaSec_ge_one _ _, fun hn => by rw [hn]; rfl⟩

theorem submitted_elapsed_ge_one_witness :
    1 ≤ (4 : Int) ∧ (sampleState.startTime = none → (4 : Int) = 60) :=
  (submitted_elapsed_ge_one false 5000 0 (SubmitOutcome.err "x") 0
    sampleState 2 4 false).1 (by decide)

/-- C5: a failed training submission surfaces the error message and leaves
the session exactly where it was — same question, same start time, same
elapsed counter — after issuing the one (failed) submit call, so the user
may retry. -/
theorem trainingMark_error_stays (solved : Bool) (now now2 : Int)
    (pickIdx : Nat) (st : AppState) (q : Question) (msg : String)
    (hq : st.trainingQuestion = some q)
    (hns : solved = true → q.is_solved = false) :
    handleTrainingMark solved now now2 (SubmitOutcome.err msg) pickIdx st =
      ({ st with trainingInfoMessage := some (progressErrorMsg msg) },
       [Event.submit q.id (computeDeltaSec st.trainingStartTime now) solved]) ∧
    (handleTrainingMark solved now now2 (SubmitOutcome.err msg) pickIdx
      st).1.trainingQuestion = st.trainingQuestion ∧
    (handleTrainingMark solved now now2 (SubmitOutcome.err msg) pickIdx
      st).1.trainingStartTime = st.trainingStartTime ∧
    (handleTrainingMark solved now now2 (SubmitOutcome.err msg) pickIdx
      st).1.trainingElapsedSec = st.trainingElapsedSec := by
  have hcond : (solved && q.is_solved) = false := by
    cases solved
    · rfl
    · simp [hns rfl]
  have hmain : handleTrainingMark solved now now2 (SubmitOutcome.err msg)
      pickIdx st =
      ({ st with trainingInfoMessage := some (progressErrorMsg msg) },
       [Event.submit q.id (computeDeltaSec st.trainingStartTime now)
         solved]) := by
    simp [handleTrainingMark, hq, hcond]
  refine ⟨hmain, ?_, ?_, ?_⟩ <;> rw [hmain]

theorem trainingMark_error_stays_witness :
    handleTrainingMark false 5000 0 (SubmitOutcome.err "boom") 0 sampleState =
      ({ sampleState with
          trainingInfoMessage := some (progressErrorMsg "boom") },
       [Event.submit 2 3 false]) :=
  ((trainingMark_error_stays false 5000 0 0 sampleState qHardSolved "boom"
    rfl (by decide)).1).trans (by decide)

/-- C10: marking an attempt with solved = false always submits, even when
the current question is already solved — the already-solved short-circuit
only guards solved = true — and on success the handlers re-fetch catalog
and stats exactly once each. -/
theorem attempt_always_submits (now now2 : Int) (pickIdx : Nat)
    (st : AppState) (q : Question) (newQs : List Question) (msg : String) :
    (st.selectedQuestion = some q →
      (handleMarkSolved false now now2 (SubmitOutcome.ok newQs) st).2 =
        [Event.submit q.id (computeDeltaSec st.startTime now) false,
         Event.fetchCatalog, Event.fetchStats] ∧
      countSubmits
        (handleMarkSolved false now now2 (SubmitOutcome.err msg) st).2
        = 1) ∧
    (st.trainingQuestion = some q →
      (handleTrainingMark false now now2 (SubmitOutcome.ok newQs) pickIdx
        st).2 =
        [Event.submit q.id (computeDeltaSec st.trainingStartTime now) false,
         Event.fetchCatalog, Event.fetchStats] ∧
      countSubmits
        (handleTrainingMark false now now2 (SubmitOutcome.err msg) pickIdx
          st).2 = 1) := by
  constructor
  · intro hsel
    constructor
    · simp [handleMarkSolved, hsel]
    · simp [handleMarkSolved, hsel, countSubmits]
  · intro hq
    constructor
    · rcases hp : pickRandomTrainingQuestion st.questions pickIdx
          with _ | nq <;>
        simp [handleTrainingMark, hq, hp]
    · simp [handleTrainingMark, hq, countSubmits]

theorem attempt_always_submits_witness :
    (handleMarkSolved false 5000 0 (SubmitOutcome.ok []) sampleState).2 =
      [Event.submit 2 4 false, Event.fetchCatalog, Event.fetchStats] :=
  (((attempt_always_submits 5000 0 0 sampleState qHardSolved [] "x").1
    rfl).1).trans (by decide)

/-- C1: marking solved when the current question is already solved is an
informational no-op in both detail and training mode — only the
informational message changes and no remote call is issued — and marking
an unsolved question solved twice (the refreshed catalog reporting it
solved after the first success) issues exactly one submission in total. -/
theorem markSolved_already_solved_noop (now nowB now2 nowB2 : Int)
    (outcome outcome2 : SubmitOutcome) (pickIdx : Nat) (st : AppState)
    (q : Question) :
    (st.selectedQuestion = some q → q.is_solved = true →
      handleMarkSolved true now now2 outcome st =
        ({ st with infoMessage := some alreadySolvedDetailMsg }, [])) ∧
    (st.trainingQuestion = some q → q.is_solved = true →
      handleTrainingMark true now now2 outcome pickIdx st =
        ({ st with trainingInfoMessage := some alreadySolvedTrainingMsg },
         [])) ∧
    (∀ (newQs : List Question) (q' : Question),
      st.selectedQuestion = some q → q.is_solved = false →
      newQs.find? (fun x : Question => x.id == q.id) = some q' →
      q'.is_solved = true →
      countSubmits
        ((handleMarkSolved true now now2 (SubmitOutcome.ok newQs) st).2 ++
         (handleMarkSolved true nowB nowB2 outcome2
           (handleMarkSolved true now now2 (SubmitOutcome.ok newQs) st).1).2)
        = 1) := by
  refine ⟨?_, ?_, ?_⟩
  · intro hsel hsol
    simp [handleMarkSolved, hsel, hsol]
  · intro hq hsol
    simp [handleTrainingMark, hq, hsol]
  · intro newQs q' hsel hunsolved hfind hsolved'
    have h1 : handleMarkSolved true now now2 (SubmitOutcome.ok newQs) st =
        ({ reloadQuestionsState newQs st with
            infoMessage := some (markSolvedSuccessMsg true
              (computeDeltaSec st.startTime now)),
            startTime := some now2 },
         [Event.submit q.id (computeDeltaSec st.startTime now) true,
          Event.fetchCatalog, Event.fetchStats]) := by
      simp [handleMarkSolved, hsel, hunsolved]
    have hsel1 : (handleMarkSolved true now now2
        (SubmitOutcome.ok newQs) st).1.selectedQuestion = some q' := by
      rw [h1]
      exact reload_selectedQuestion_found newQs st q q' hsel hfind
    have h2 : ∀ st' : AppState, st'.selectedQuestion = some q' →
        (handleMarkSolved true nowB nowB2 outcome2 st').2 = [] := by
      intro st' hsel'
      simp [handleMarkSolved, hsel', hsolved']
    have h2' := h2 _ hsel1
    rw [h2', h1]
    rfl

theorem markSolved_already_solved_noop_witness :
    handleMarkSolved true 5000 0 (SubmitOutcome.err "x") sampleState =
      ({ sampleState with infoMessage := some alreadySolvedDetailMsg }, []) :=
  (markSolved_already_solved_noop 5000 0 0 0 (SubmitOutcome.err "x")
    (SubmitOutcome.err "x") 0 sampleState qHardSolved).1 rfl rfl

/-- C8: starting a training session and advancing after a successful
submission both hide the three reveal blocks and restart the timer;
re-selecting the identical question in the detail view only restarts the
attempt clock, preserving reveal flags and message; selecting a different
question restarts the clock, hides the three reveal blocks and clears the
message. -/
theorem reveal_flags_reset (now now2 : Int) (pickIdx : Nat) (st : AppState)
    (q next : Question) (solved : Bool) (newQs : List Question) :
    (st.questions ≠ [] → ∀ q0,
      pickRandomTrainingQuestion st.questions pickIdx = some q0 →
      (startTrainingSession now ReloadOutcome.err pickIdx st).1 =
        { st with
            view := ViewMode.training, trainingInfoMessage := none,
            trainingQuestion := some q0, trainingModeRunning := true,
            trainingStartTime := some now, trainingElapsedSec := 0,
            trainingShowHint := false, trainingShowSolution := false,
            trainingShowAnswer := false }) ∧
    (st.trainingQuestion = some q → (solved = true → q.is_solved = false) →
      pickRandomTrainingQuestion st.questions pickIdx = some next →
      (handleTrainingMark solved now now2 (SubmitOutcome.ok newQs) pickIdx
          st).1 =
        { reloadQuestionsState newQs st with
            trainingQuestion := some next,
            trainingStartTime := some now2, trainingElapsedSec := 0,
            trainingShowHint := false, trainingShowSolution := false,
            trainingShowAnswer := false, trainingInfoMessage := none }) ∧
    (∀ q0, st.selectedQuestion = some q0 → q0.id = q.id →
      handleSelectQuestion q now st = { st with startTime := some now }) ∧
    ((∀ q0, st.selectedQuestion = some q0 → q0.id ≠ q.id) →
      handleSelectQuestion q now st =
        { st with
            selectedQuestion := some q, startTime := some now,
            showHint := false, showSolution := false, showAnswer := false,
            infoMessage := none }) := by
  refine ⟨?_, ?_, ?_, ?_⟩
  · intro hqs q0 hpick
    have hne : st.questions.isEmpty = false := by
      simp [hqs]
    simp [startTrainingSession, hne, startTrainingApply, hpick]
  · intro hq hns hpick
    have hcond : (solved && q.is_solved) = false := by
      cases solved
      · rfl
      · simp [hns rfl]
    simp [handleTrainingMark, hq, hcond, hpick]
  · intro q0 hsel hid
    simp [handleSelectQuestion, hsel, hid]
  · intro hdiff
    rcases hsel : st.selectedQuestion with _ | q0
    · simp [handleSelectQuestion, hsel]
    · have hbeq : (q0.id == q.id) = false := by
        simp [hdiff q0 hsel]
      simp [handleSelectQuestion, hsel, hbeq]

theorem reveal_flags_reset_witness :
    handleSelectQuestion qHardSolved 9000 sampleState =
      { sampleState with startTime := some 9000 } :=
  (reveal_flags_reset 9000 0 0 sampleState qHardSolved qHardSolved false
    []).2.2.1 qHardSolved rfl rfl

end Abyss
